import Mathlib

/-!
Verification of the domain-tracker state machine.

Shallow embedding of `src/state_manager.py` and `src/domain_monitor.py`:
the domain-status transition engine (`update_domain_status`), the state
store operations (`add_domain`, `remove_domain`,
`reset_domain_for_monitoring`), the JSON persistence layer
(`save_state` / `load_state`), and the availability-classification
policy of `DomainChecker`.

Timestamps (`datetime.now().isoformat()` in the source) are passed in
explicitly as strings, since the source only ever stores them.
-/

/-- The `status` field of a domain entry: the source stores one of the
strings "unknown", "available", "unavailable". -/
inductive Status
  | unknown
  | available
  | unavailable
deriving DecidableEq, Repr

/-- One entry of the `domains` map, mirroring the dict created by
`StateManager._create_domain_entry` (src/state_manager.py:42-50). -/
structure DomainEntry where
  status : Status
  last_checked : Option String
  notification_sent : Bool
  first_available_date : Option String
  last_status_change : Option String
deriving DecidableEq, Repr

/-- `StateManager._create_domain_entry` (src/state_manager.py:42-50). -/
def create_domain_entry : DomainEntry :=
  { status := .unknown
  , last_checked := none
  , notification_sent := false
  , first_available_date := none
  , last_status_change := none }

/-- The per-entry core of `StateManager.update_domain_status`
(src/state_manager.py:169-219), with the current time passed in.
Returns the updated entry and the `should_notify` boolean the method
returns. -/
def updateEntry (e : DomainEntry) (is_available : Bool) (now : String) :
    DomainEntry × Bool :=
  let new_status : Status := if is_available then .available else .unavailable
  let e1 := { e with last_checked := some now }
  if e.status ≠ new_status then
    let e2 := { e1 with status := new_status, last_status_change := some now }
    if is_available then
      ({ e2 with first_available_date := some now, notification_sent := false },
       true)
    else
      ({ e2 with notification_sent := false }, false)
  else
    let e2 := { e1 with status := new_status }
    if is_available && !e2.notification_sent then
      ({ e2 with notification_sent := true }, true)
    else
      (e2, false)

/-- The whole persisted state file: `domains`, `last_updated`,
`total_checks` (src/state_manager.py:29-33).  The `domains` dict is
modelled as an association list with unique keys, in insertion order,
as a Python dict behaves. -/
structure TrackerState where
  domains : List (String × DomainEntry)
  last_updated : Option String
  total_checks : Nat
deriving DecidableEq, Repr

/-- Lower-casing a string character by character, as `str.lower()`
does (restricted to the ASCII case mapping of `Char.toLower`). -/
def lowerString (s : String) : String := ⟨s.data.map Char.toLower⟩

/-- `str.strip()`: drop whitespace from both ends. -/
def stripString (s : String) : String :=
  ⟨((s.data.dropWhile Char.isWhitespace).reverse.dropWhile
      Char.isWhitespace).reverse⟩

/-- `domain.lower().strip()`, applied by `add_domain`, `remove_domain`
and `reset_domain_for_monitoring` before keying into the dict. -/
def normalizeDomain (d : String) : String := stripString (lowerString d)

/-- `state["domains"][domain] = entry` on a Python dict: replace in
place when the key exists, append otherwise. -/
def setEntry (ds : List (String × DomainEntry)) (d : String)
    (e : DomainEntry) : List (String × DomainEntry) :=
  match ds with
  | [] => [(d, e)]
  | (k, v) :: rest =>
    if k = d then (k, e) :: rest else (k, v) :: setEntry rest d e

/-- `StateManager.update_domain_status` (src/state_manager.py:169-219)
at the state level: defaults a missing entry, applies the transition,
and saves (which stamps `last_updated`, src/state_manager.py:67).
Returns the saved state and the `should_notify` result. -/
def update_domain_status (s : TrackerState) (domain : String)
    (is_available : Bool) (now : String) : TrackerState × Bool :=
  let e0 := ((s.domains.lookup domain).getD create_domain_entry)
  let r := updateEntry e0 is_available now
  ({ s with domains := setEntry s.domains domain r.1
          , last_updated := some now }, r.2)

/-- `StateManager.add_domain` (src/state_manager.py:99-118): lower-cases
and strips the name, refuses duplicates, otherwise inserts a default
entry and saves. -/
def add_domain (s : TrackerState) (domain : String) (now : String) :
    TrackerState × Bool :=
  let d := normalizeDomain domain
  if (s.domains.lookup d).isSome then
    (s, false)
  else
    ({ s with domains := setEntry s.domains d create_domain_entry
            , last_updated := some now }, true)

/-- `StateManager.remove_domain` (src/state_manager.py:148-167). -/
def remove_domain (s : TrackerState) (domain : String) (now : String) :
    TrackerState × Bool :=
  let d := normalizeDomain domain
  if (s.domains.lookup d).isSome then
    ({ s with domains := s.domains.filter (fun p => !(p.1 == d))
            , last_updated := some now }, true)
  else
    (s, false)

/-- `StateManager.reset_domain_for_monitoring`
(src/state_manager.py:120-146): on an existing domain, sets status to
"unknown", clears `notification_sent`, stamps `last_status_change`,
and saves. -/
def reset_domain_for_monitoring (s : TrackerState) (domain : String)
    (now : String) : TrackerState × Bool :=
  let d := normalizeDomain domain
  match s.domains.lookup d with
  | none => (s, false)
  | some e =>
    ({ s with
        domains := setEntry s.domains d
          { e with status := .unknown
                 , notification_sent := false
                 , last_status_change := some now }
      , last_updated := some now }, true)

/-- `DomainMonitor.monitor_single_domain` (src/domain_monitor.py:128-138)
for one cycle: probe verdict `is_available` already computed, update the
state, and (when `should_notify ∧ is_available`) attempt the Telegram
send, whose success or failure (`send_success`) is never written back to
the state.  Returns the new state and whether a send was attempted. -/
def monitor_single_domain (s : TrackerState) (domain : String)
    (is_available : Bool) (send_success : Bool) (now : String) :
    TrackerState × Bool :=
  let r := update_domain_status s domain is_available now
  let attempted := r.2 && is_available
  -- `_send_availability_notification` only logs the delivery outcome
  -- (src/domain_monitor.py:150-154); the state `r.1` is unchanged by it.
  let _ := attempted && send_success
  (r.1, attempted)

/-- `pat` is a prefix of `s`, character by character. -/
def charsPrefix : List Char → List Char → Bool
  | [], _ => true
  | _ :: _, [] => false
  | a :: as, b :: bs => a == b && charsPrefix as bs

/-- `pat` occurs contiguously somewhere in `s`. -/
def charsInfix (pat : List Char) : List Char → Bool
  | [] => pat.isEmpty
  | c :: rest => charsPrefix pat (c :: rest) || charsInfix pat rest

/-- Python's `pat in s` substring test. -/
def containsPattern (s pat : String) : Bool := charsInfix pat.data s.data

/-- `DomainChecker._has_registration_indicators`
(src/domain_monitor.py:36-47).  Parsed WHOIS data is modelled as an
association list of string values; Python's truthiness test
`parsed_dict[key]` on such a value is non-emptiness. -/
def registration_indicator_keys : List String :=
  ["created", "creation_date", "registered", "registrar", "domain_name",
   "expires", "expiry_date", "updated", "status"]

def has_registration_indicators (parsed : List (String × String)) : Bool :=
  registration_indicator_keys.any (fun key =>
    match parsed.lookup key with
    | some v => v != ""
    | none => false)

/-- `DomainChecker._check_query_string_for_availability`
(src/domain_monitor.py:49-59). -/
def not_found_patterns : List String :=
  ["no match", "not found", "no data found", "not exist",
   "no entries found", "no matching record", "available",
   "not registered", "no such domain", "domain not found"]

def check_query_string_for_availability (query_string : String) : Bool :=
  not_found_patterns.any
    (fun pat => containsPattern (lowerString query_string) pat)

/-- The classification tail of `DomainChecker.check_domain_availability`
(src/domain_monitor.py:96-106), applied once a lookup returned
`(query_string, parsed_dict)`: registration indicators force
unavailable, then availability patterns in the raw text, then the
fail-safe default of unavailable.  Python truthiness of `parsed_dict`
is non-emptiness of the dict, of `query_string` non-emptiness of the
string. -/
def classify_lookup_result (query_string : String)
    (parsed : List (String × String)) : Bool :=
  if !parsed.isEmpty && has_registration_indicators parsed then
    false
  else if query_string != "" &&
      check_query_string_for_availability query_string then
    true
  else
    false

/-- A JSON value, as written by `json.dump` and read back by
`json.load` (src/state_manager.py:52-74). -/
inductive JValue
  | null
  | bool (b : Bool)
  | str (s : String)
  | num (n : Nat)
  | obj (fields : List (String × JValue))

/-- The status strings the source stores (src/state_manager.py:183). -/
def statusToString : Status → String
  | .unknown => "unknown"
  | .available => "available"
  | .unavailable => "unavailable"

def statusOfString (s : String) : Option Status :=
  if s = "unknown" then some .unknown
  else if s = "available" then some .available
  else if s = "unavailable" then some .unavailable
  else none

def encodeOptStr : Option String → JValue
  | none => .null
  | some s => .str s

def decodeOptStr : JValue → Option (Option String)
  | .null => some none
  | .str s => some (some s)
  | _ => none

/-- Serialization of one domain entry, field for field as the dict of
`_create_domain_entry` is dumped. -/
def encodeEntry (e : DomainEntry) : JValue :=
  .obj [("status", .str (statusToString e.status)),
        ("last_checked", encodeOptStr e.last_checked),
        ("notification_sent", .bool e.notification_sent),
        ("first_available_date", encodeOptStr e.first_available_date),
        ("last_status_change", encodeOptStr e.last_status_change)]

def decodeEntry : JValue → Option DomainEntry
  | .obj fields =>
    match fields.lookup "status", fields.lookup "last_checked",
          fields.lookup "notification_sent",
          fields.lookup "first_available_date",
          fields.lookup "last_status_change" with
    | some (.str st), some lc, some (.bool ns), some fa, some lsc =>
      match statusOfString st, decodeOptStr lc, decodeOptStr fa,
            decodeOptStr lsc with
      | some st', some lc', some fa', some lsc' =>
        some { status := st', last_checked := lc', notification_sent := ns
             , first_available_date := fa', last_status_change := lsc' }
      | _, _, _, _ => none
    | _, _, _, _, _ => none
  | _ => none

def decodeDomains : List (String × JValue) →
    Option (List (String × DomainEntry))
  | [] => some []
  | (k, j) :: rest =>
    match decodeEntry j, decodeDomains rest with
    | some e, some es => some ((k, e) :: es)
    | _, _ => none

def encodeState (s : TrackerState) : JValue :=
  .obj [("domains", .obj (s.domains.map (fun p => (p.1, encodeEntry p.2)))),
        ("last_updated", encodeOptStr s.last_updated),
        ("total_checks", .num s.total_checks)]

def decodeState : JValue → Option TrackerState
  | .obj fields =>
    match fields.lookup "domains", fields.lookup "last_updated",
          fields.lookup "total_checks" with
    | some (.obj ds), some lu, some (.num tc) =>
      match decodeDomains ds, decodeOptStr lu with
      | some ds', some lu' =>
        some { domains := ds', last_updated := lu', total_checks := tc }
      | _, _ => none
    | _, _, _ => none
  | _ => none

/-- `StateManager.save_state` (src/state_manager.py:64-74): stamps
`last_updated` with the current time, then dumps the state as JSON.
The model returns the written JSON document. -/
def save_state (s : TrackerState) (now : String) : JValue :=
  encodeState { s with last_updated := some now }

/-- `StateManager.load_state` (src/state_manager.py:52-62): parses the
file, and on any failure falls back to the minimal state
`{"domains": {}, "last_updated": None, "total_checks": 0}`. -/
def load_state (j : JValue) : TrackerState :=
  (decodeState j).getD { domains := [], last_updated := none, total_checks := 0 }

/-- Counting `should_notify=true` results over a verdict sequence fed
through the transition engine, one `(verdict, timestamp)` per call. -/
def runUpdates (e : DomainEntry) : List (Bool × String) → DomainEntry × Nat
  | [] => (e, 0)
  | (v, t) :: rest =>
    let r := updateEntry e v t
    let tail := runUpdates r.1 rest
    (tail.1, (if r.2 then 1 else 0) + tail.2)

/-- Number of maximal contiguous runs of `true` (Available verdicts) in
a sequence, tracking the previous element. -/
def availableRunsAux : Bool → List Bool → Nat
  | _, [] => 0
  | prev, v :: vs => (if v && !prev then 1 else 0) + availableRunsAux v vs

def availableRuns (vs : List Bool) : Nat := availableRunsAux false vs

/-- The administrative/probe operations that mutate the store, each
carrying the wall-clock time of the call. -/
inductive StoreOp
  | add (domain : String) (now : String)
  | remove (domain : String) (now : String)
  | reset (domain : String) (now : String)
  | update (domain : String) (is_available : Bool) (now : String)

def applyOp (s : TrackerState) : StoreOp → TrackerState
  | .add d t => (add_domain s d t).1
  | .remove d t => (remove_domain s d t).1
  | .reset d t => (reset_domain_for_monitoring s d t).1
  | .update d v t => (update_domain_status s d v t).1

def runOps (s : TrackerState) (ops : List StoreOp) : TrackerState :=
  ops.foldl applyOp s

/-- Invariant I1 on one entry: `notification_sent` implies status
"available". -/
def entryInv (e : DomainEntry) : Prop :=
  e.notification_sent = true → e.status = .available

instance (e : DomainEntry) : Decidable (entryInv e) := by
  unfold entryInv; infer_instance

/-- Invariant I1 over every entry of the store. -/
def stateInv (s : TrackerState) : Prop := ∀ p ∈ s.domains, entryInv p.2

instance (s : TrackerState) : Decidable (stateInv s) := by
  unfold stateInv; infer_instance

theorem lookup_setEntry_self (ds : List (String × DomainEntry))
    (d : String) (e : DomainEntry) :
    (setEntry ds d e).lookup d = some e := by
  induction ds with
  | nil => simp [setEntry, List.lookup]
  | cons p rest ih =>
    obtain ⟨k, v⟩ := p
    by_cases h : k = d
    · subst h; simp [setEntry, List.lookup]
    · have hb : (d == k) = false := beq_eq_false_iff_ne.mpr (Ne.symm h)
      simp [setEntry, h, List.lookup, hb, ih]

theorem lookup_setEntry_ne (ds : List (String × DomainEntry))
    (d k : String) (e : DomainEntry) (hk : k ≠ d) :
    (setEntry ds d e).lookup k = ds.lookup k := by
  have hb : (k == d) = false := beq_eq_false_iff_ne.mpr hk
  induction ds with
  | nil => simp [setEntry, List.lookup, hb]
  | cons p rest ih =>
    obtain ⟨k', v⟩ := p
    by_cases h : k' = d
    · subst h
      simp [setEntry, List.lookup, hb, ih]
    · cases hkk : (k == k') <;> simp [setEntry, h, List.lookup, hkk, ih]

theorem mem_setEntry (ds : List (String × DomainEntry)) (d : String)
    (e : DomainEntry) (p : String × DomainEntry)
    (hp : p ∈ setEntry ds d e) : p = (d, e) ∨ p ∈ ds := by
  induction ds with
  | nil =>
    simp [setEntry] at hp
    exact Or.inl hp
  | cons q rest ih =>
    obtain ⟨k, v⟩ := q
    by_cases h : k = d
    · subst h
      simp [setEntry] at hp
      rcases hp with h1 | h1
      · exact Or.inl (by simp [h1])
      · exact Or.inr (List.mem_cons_of_mem _ h1)
    · simp [setEntry, h] at hp
      rcases hp with h1 | h1
      · exact Or.inr (by simp [h1])
      · rcases ih h1 with h2 | h2
        · exact Or.inl h2
        · exact Or.inr (List.mem_cons_of_mem _ h2)

theorem lookup_some_mem (ds : List (String × DomainEntry)) (k : String)
    (v : DomainEntry) (h : ds.lookup k = some v) : (k, v) ∈ ds := by
  induction ds with
  | nil => simp [List.lookup] at h
  | cons p rest ih =>
    obtain ⟨k', v'⟩ := p
    by_cases hk : k = k'
    · subst hk
      simp [List.lookup] at h
      simp [h]
    · have hb : (k == k') = false := beq_eq_false_iff_ne.mpr hk
      simp [List.lookup, hb] at h
      exact List.mem_cons_of_mem _ (ih h)

/-- The transition engine preserves invariant I1 on the entry it
updates. -/
theorem updateEntry_entryInv (e : DomainEntry) (v : Bool) (t : String)
    (h : entryInv e) : entryInv (updateEntry e v t).1 := by
  obtain ⟨st, lc, ns, fa, lsc⟩ := e
  cases st <;> cases v <;> cases ns <;>
    simp [updateEntry, entryInv] at h ⊢

theorem entryInv_create : entryInv create_domain_entry := by decide

theorem stateInv_update (s : TrackerState) (d : String) (v : Bool)
    (t : String) (h : stateInv s) :
    stateInv (update_domain_status s d v t).1 := by
  intro p hp
  have hmem := mem_setEntry s.domains d _ p hp
  rcases hmem with h1 | h1
  · subst h1
    apply updateEntry_entryInv
    cases he : s.domains.lookup d with
    | none => simp [he, entryInv_create]
    | some e =>
      simp [he]
      exact h (d, e) (lookup_some_mem _ _ _ he)
  · exact h p h1

theorem stateInv_add (s : TrackerState) (d t : String) (h : stateInv s) :
    stateInv (add_domain s d t).1 := by
  unfold add_domain
  by_cases hd : (s.domains.lookup (normalizeDomain d)).isSome
  · simpa [hd] using h
  · simp only [hd]
    intro p hp
    have hmem := mem_setEntry s.domains (normalizeDomain d) _ p hp
    rcases hmem with h1 | h1
    · subst h1; exact entryInv_create
    · exact h p h1

theorem stateInv_remove (s : TrackerState) (d t : String) (h : stateInv s) :
    stateInv (remove_domain s d t).1 := by
  unfold remove_domain
  by_cases hd : (s.domains.lookup (normalizeDomain d)).isSome
  · simp only [hd, if_pos]
    intro p hp
    exact h p (List.mem_of_mem_filter hp)
  · simpa [hd] using h

theorem stateInv_reset (s : TrackerState) (d t : String) (h : stateInv s) :
    stateInv (reset_domain_for_monitoring s d t).1 := by
  unfold reset_domain_for_monitoring
  cases he : s.domains.lookup (normalizeDomain d) with
  | none => simpa [he] using h
  | some e =>
    simp only [he]
    intro p hp
    have hmem := mem_setEntry s.domains (normalizeDomain d) _ p hp
    rcases hmem with h1 | h1
    · subst h1
      intro hns
      simp at hns
    · exact h p h1

theorem stateInv_applyOp (s : TrackerState) (op : StoreOp)
    (h : stateInv s) : stateInv (applyOp s op) := by
  cases op with
  | add d t => exact stateInv_add s d t h
  | remove d t => exact stateInv_remove s d t h
  | reset d t => exact stateInv_reset s d t h
  | update d v t => exact stateInv_update s d v t h

theorem decodeEntry_encodeEntry (e : DomainEntry) :
    decodeEntry (encodeEntry e) = some e := by
  obtain ⟨st, lc, ns, fa, lsc⟩ := e
  cases st <;> cases lc <;> cases fa <;> cases lsc <;> rfl

theorem decodeDomains_map (ds : List (String × DomainEntry)) :
    decodeDomains (ds.map (fun p => (p.1, encodeEntry p.2))) = some ds := by
  induction ds with
  | nil => rfl
  | cons p rest ih =>
    obtain ⟨k, e⟩ := p
    simp [decodeDomains, decodeEntry_encodeEntry, ih]

theorem decodeState_encodeState (s : TrackerState) :
    decodeState (encodeState s) = some s := by
  obtain ⟨ds, lu, tc⟩ := s
  cases lu <;>
    simp [encodeState, decodeState, List.lookup, decodeDomains_map,
          encodeOptStr, decodeOptStr]

/-- A sample registered-looking entry used by concrete witnesses. -/
def sampleEntry : DomainEntry :=
  { status := .available
  , last_checked := some "LC"
  , notification_sent := true
  , first_available_date := some "FA"
  , last_status_change := some "LS" }

/-- A sample two-domain store used by concrete witnesses. -/
def sampleState : TrackerState :=
  { domains := [("x.com", sampleEntry), ("y.com", create_domain_entry)]
  , last_updated := some "LU"
  , total_checks := 7 }

/-- C1: the claim says the number of `should_notify=true` results equals
the number of maximal contiguous runs of Available verdicts.  The code
falsifies it: on the verdict sequence [Available, Available] from the
default entry, the transition call returns true with
`notification_sent` still false (src/state_manager.py:196-198), so the
second call returns true again (src/state_manager.py:208-212) — two
notifications for one run. -/
theorem update_notifies_twice_per_streak :
    (runUpdates create_domain_entry [(true, "T0"), (true, "T1")]).2 = 2 ∧
    availableRuns [true, true] = 1 := by
  decide

/-- C2: the claim says the first Available verdict on a fresh entry
returns `should_notify=true` and leaves
`notification_sent=true`.  The code does return true, sets
`status="available"` and `first_available_date=now`, but leaves
`notification_sent=false` (src/state_manager.py:196). -/
theorem first_available_leaves_notification_unsent :
    (updateEntry create_domain_entry true "T0").2 = true ∧
    (updateEntry create_domain_entry true "T0").1.status = .available ∧
    (updateEntry create_domain_entry true "T0").1.first_available_date =
      some "T0" ∧
    (updateEntry create_domain_entry true "T0").1.notification_sent = false := by
  decide

/-- C3: the claim says the same verdict twice in a row never yields
`should_notify=true` on the second call.  The code falsifies it:
Available then Available again, starting from the default entry,
returns true on the second call as well. -/
theorem repeated_available_notifies_again :
    (updateEntry (updateEntry create_domain_entry true "T0").1 true "T1").2 =
      true := by
  decide

/-- C4: the claim says a failed notification send leaves
`notification_sent=false` so a later cycle retries.  The code falsifies
it: `monitor_single_domain` marks `notification_sent=true` inside
`update_domain_status` (src/state_manager.py:210) before the Telegram
send, and the send's failure is never written back
(src/domain_monitor.py:128-138).  Two monitoring cycles on a fresh
domain with every send failing end with a send attempted and
`notification_sent=true`. -/
theorem failed_send_marks_notification_sent :
    (monitor_single_domain
      (monitor_single_domain
        { domains := [], last_updated := none, total_checks := 0 }
        "d.com" true false "T0").1
      "d.com" true false "T1").2 = true ∧
    (((monitor_single_domain
        (monitor_single_domain
          { domains := [], last_updated := none, total_checks := 0 }
          "d.com" true false "T0").1
        "d.com" true false "T1").1.domains.lookup "d.com").getD
      create_domain_entry).notification_sent = true := by
  decide

/-- C5: invariant I1 — `notification_sent=true` implies
`status="available"` — holds of every entry in every state reachable by
add/remove/reset/update operations from a state all of whose entries
already satisfy it (in particular from all-default entries). -/
theorem reachable_states_satisfy_I1 (s0 : TrackerState)
    (ops : List StoreOp) (h : stateInv s0) : stateInv (runOps s0 ops) := by
  induction ops generalizing s0 with
  | nil => exact h
  | cons op rest ih =>
    simp only [runOps, List.foldl] at *
    exact ih _ (stateInv_applyOp s0 op h)

theorem reachable_states_satisfy_I1_witness :
    stateInv { domains := [("a.com", create_domain_entry)]
             , last_updated := none, total_checks := 0 } ∧
    stateInv (runOps
      { domains := [("a.com", create_domain_entry)]
      , last_updated := none, total_checks := 0 }
      [.update "a.com" true "T0", .update "a.com" true "T1",
       .reset "a.com" "T2", .add "b.com" "T3",
       .update "b.com" false "T4", .remove "a.com" "T5"]) :=
  ⟨by decide,
   reachable_states_satisfy_I1
     { domains := [("a.com", create_domain_entry)]
     , last_updated := none, total_checks := 0 }
     [.update "a.com" true "T0", .update "a.com" true "T1",
      .reset "a.com" "T2", .add "b.com" "T3",
      .update "b.com" false "T4", .remove "a.com" "T5"]
     (by decide)⟩

/-- C6: after a successful `reset_domain_for_monitoring` on an existing
domain the entry has status "unknown", `notification_sent=false`,
`last_status_change=now`, and the next Available verdict through
`update_domain_status` returns `should_notify=true`. -/
theorem reset_then_available_notifies (s : TrackerState)
    (d t1 t2 : String) (e : DomainEntry)
    (h : s.domains.lookup (normalizeDomain d) = some e) :
    (reset_domain_for_monitoring s d t1).2 = true ∧
    (reset_domain_for_monitoring s d t1).1.domains.lookup
        (normalizeDomain d) =
      some { e with status := .unknown, notification_sent := false
                  , last_status_change := some t1 } ∧
    (update_domain_status (reset_domain_for_monitoring s d t1).1
      (normalizeDomain d) true t2).2 = true := by
  unfold reset_domain_for_monitoring
  simp only [h]
  refine ⟨by simp, lookup_setEntry_self _ _ _, ?_⟩
  unfold update_domain_status
  simp only [lookup_setEntry_self]
  rfl

theorem reset_then_available_notifies_witness :
    sampleState.domains.lookup (normalizeDomain "x.com") =
      some sampleEntry ∧
    ((reset_domain_for_monitoring sampleState "x.com" "T1").2 = true ∧
     (reset_domain_for_monitoring sampleState "x.com" "T1").1.domains.lookup
         (normalizeDomain "x.com") =
       some { sampleEntry with status := .unknown
                             , notification_sent := false
                             , last_status_change := some "T1" } ∧
     (update_domain_status
       (reset_domain_for_monitoring sampleState "x.com" "T1").1
       (normalizeDomain "x.com") true "T2").2 = true) :=
  ⟨by decide,
   reset_then_available_notifies sampleState "x.com" "T1" "T2" sampleEntry
     (by decide)⟩

/-- C7: registration indicators in the parsed lookup data force the
verdict Unavailable even when the raw text matches an availability
pattern, and when neither indicators nor availability patterns match
the verdict defaults to Unavailable. -/
theorem classification_fail_safe (query_string : String)
    (parsed : List (String × String)) :
    (has_registration_indicators parsed = true →
      classify_lookup_result query_string parsed = false) ∧
    (has_registration_indicators parsed = false →
      check_query_string_for_availability query_string = false →
      classify_lookup_result query_string parsed = false) := by
  constructor
  · intro hreg
    have hne : parsed.isEmpty = false := by
      cases parsed with
      | nil => exact absurd hreg (by decide)
      | cons p rest => rfl
    simp [classify_lookup_result, hne, hreg]
  · intro hreg hq
    simp [classify_lookup_result, hreg, hq]

theorem classification_fail_safe_witness :
    (has_registration_indicators [("registrar", "Example Registrar")] =
        true ∧
     classify_lookup_result "domain not found"
        [("registrar", "Example Registrar")] = false) ∧
    (has_registration_indicators [("other", "x")] = false ∧
     check_query_string_for_availability "everything is fine" = false ∧
     classify_lookup_result "everything is fine" [("other", "x")] = false) :=
  ⟨⟨by decide,
    (classification_fail_safe "domain not found"
      [("registrar", "Example Registrar")]).1 (by decide)⟩,
   ⟨by decide, by decide,
    (classification_fail_safe "everything is fine" [("other", "x")]).2
      (by decide) (by decide)⟩⟩

/-- C8: reset only touches status, `notification_sent` and
`last_status_change` of the target entry — `first_available_date` and
`last_checked` survive — and every other domain's entry is untouched. -/
theorem reset_frame (s : TrackerState) (d t k : String) (e : DomainEntry)
    (h : s.domains.lookup (normalizeDomain d) = some e)
    (hk : k ≠ normalizeDomain d) :
    (reset_domain_for_monitoring s d t).1.domains.lookup
        (normalizeDomain d) =
      some { e with status := .unknown, notification_sent := false
                  , last_status_change := some t } ∧
    ((reset_domain_for_monitoring s d t).1.domains.lookup
        (normalizeDomain d)).map DomainEntry.first_available_date =
      some e.first_available_date ∧
    ((reset_domain_for_monitoring s d t).1.domains.lookup
        (normalizeDomain d)).map DomainEntry.last_checked =
      some e.last_checked ∧
    (reset_domain_for_monitoring s d t).1.domains.lookup k =
      s.domains.lookup k := by
  unfold reset_domain_for_monitoring
  simp only [h]
  refine ⟨lookup_setEntry_self _ _ _, ?_, ?_, lookup_setEntry_ne _ _ _ _ hk⟩
  · simp [lookup_setEntry_self]
  · simp [lookup_setEntry_self]

theorem reset_frame_witness :
    sampleState.domains.lookup (normalizeDomain "x.com") =
      some sampleEntry ∧
    "y.com" ≠ normalizeDomain "x.com" ∧
    ((reset_domain_for_monitoring sampleState "x.com" "T1").1.domains.lookup
        (normalizeDomain "x.com") =
      some { sampleEntry with status := .unknown
                            , notification_sent := false
                            , last_status_change := some "T1" } ∧
     ((reset_domain_for_monitoring sampleState "x.com" "T1").1.domains.lookup
        (normalizeDomain "x.com")).map DomainEntry.first_available_date =
      some sampleEntry.first_available_date ∧
     ((reset_domain_for_monitoring sampleState "x.com" "T1").1.domains.lookup
        (normalizeDomain "x.com")).map DomainEntry.last_checked =
      some sampleEntry.last_checked ∧
     (reset_domain_for_monitoring sampleState "x.com" "T1").1.domains.lookup
        "y.com" = sampleState.domains.lookup "y.com") :=
  ⟨by decide, by decide,
   reset_frame sampleState "x.com" "T1" "y.com" sampleEntry (by decide)
     (by decide)⟩

/-- C9: saving, loading and saving again reproduces the saved document
field for field; only the `last_updated` stamp of the outer save
differs, and with equal stamps the documents are identical. -/
theorem save_load_save_roundtrip (s : TrackerState) (t1 t2 : String) :
    load_state (save_state s t1) = { s with last_updated := some t1 } ∧
    save_state (load_state (save_state s t1)) t2 = save_state s t2 := by
  have h : load_state (save_state s t1) =
      { s with last_updated := some t1 } := by
    simp [load_state, save_state, decodeState_encodeState]
  exact ⟨h, by rw [h]; rfl⟩

/-- C10: `update_domain_status` on domain `d` leaves every other
domain's entry and `total_checks` unchanged; only `d`'s entry and the
top-level `last_updated` stamp move. -/
theorem update_domain_status_frame (s : TrackerState) (d : String)
    (v : Bool) (t k : String) (hk : k ≠ d) :
    (update_domain_status s d v t).1.domains.lookup k =
      s.domains.lookup k ∧
    (update_domain_status s d v t).1.total_checks = s.total_checks ∧
    (update_domain_status s d v t).1.last_updated = some t := by
  unfold update_domain_status
  exact ⟨lookup_setEntry_ne _ _ _ _ hk, rfl, rfl⟩

theorem update_domain_status_frame_witness :
    "y.com" ≠ "x.com" ∧
    ((update_domain_status sampleState "x.com" false "T9").1.domains.lookup
        "y.com" = sampleState.domains.lookup "y.com" ∧
     (update_domain_status sampleState "x.com" false "T9").1.total_checks =
       sampleState.total_checks ∧
     (update_domain_status sampleState "x.com" false "T9").1.last_updated =
       some "T9") :=
  ⟨by decide,
   update_domain_status_frame sampleState "x.com" false "T9" "y.com"
     (by decide)⟩
